import Mathlib

/-!
Verification of the Event Ticket Platform inventory and order-lifecycle
logic, shallowly embedded from the Python source
(app/services/event_service.py, app/services/order_service.py,
app/services/payment_service.py, app/api/orders.py).

The database session is modelled as an explicit association-list store
(events and orders keyed by integer id); Python ints are Lean Int, Python
floats on price fields are modelled as Rat (no claim involves price
rounding), SQLAlchemy query-by-id is first-match lookup, commits are pure
state updates.  Fields never read by the embedded logic (dates,
descriptions, image urls, created/updated timestamps) are omitted.

Both app/api/orders.py and app/services/payment_service.py contain two
concatenated module versions; at import time the later definitions shadow
the earlier ones, so the embedding follows the second (effective)
definitions and notes where the two copies agree or differ.
-/

/-- Order statuses, from app/models/order.py (OrderStatus). -/
inductive OrderStatus where
  | pending
  | paid
  | canceled
  | refunded
deriving Repr, DecidableEq

/-- Event row, from app/models/event.py (inventory-relevant columns). -/
structure Event where
  title : String
  location : String
  total_capacity : Int
  available_tickets : Int
  ticket_price : Rat
  is_published : Bool
  is_canceled : Bool
deriving Repr, DecidableEq

/-- Order row, from app/models/order.py. `paid_at` stores the abstract
clock value passed for `datetime.utcnow()`. -/
structure Order where
  user_id : Int
  event_id : Int
  quantity : Int
  unit_price : Rat
  total_amount : Rat
  status : OrderStatus
  payment_id : Option String
  payment_method : String
  paid_at : Option Int
deriving Repr, DecidableEq

/-- The persistent store: events and orders keyed by id. -/
structure Db where
  events : List (Int × Event)
  orders : List (Int × Order)
deriving Repr, DecidableEq

/-- EventService.get: `db.query(Event).filter(Event.id == id).first()`. -/
def findEvent (db : Db) (id : Int) : Option Event :=
  (db.events.find? (fun p => p.1 == id)).map (fun p => p.2)

/-- OrderService order lookup by id.  Modelled from the spec: the source
calls `OrderService.get(id=...)` throughout (app/api/orders.py,
update_status, cancel_order) but the method body is absent from
app/services/order_service.py; the read contract of the spec ("fetch single
order" by id) and the twin EventService.get fix it as first-match lookup. -/
def findOrder (db : Db) (id : Int) : Option Order :=
  (db.orders.find? (fun p => p.1 == id)).map (fun p => p.2)

/-- Committing a modified event object: overwrite the row with that id. -/
def setEvent (db : Db) (id : Int) (e : Event) : Db :=
  { db with events := db.events.map (fun p => if p.1 == id then (p.1, e) else p) }

/-- Committing a modified order object: overwrite the row with that id. -/
def setOrder (db : Db) (id : Int) (o : Order) : Db :=
  { db with orders := db.orders.map (fun p => if p.1 == id then (p.1, o) else p) }

/-- Python `db.add` of a fresh order followed by commit: append the new row. -/
def insertOrder (db : Db) (id : Int) (o : Order) : Db :=
  { db with orders := db.orders ++ [(id, o)] }

/-- Python `db.delete` of an order followed by commit: drop the row(s) with that id. -/
def deleteOrder (db : Db) (id : Int) : Db :=
  { db with orders := db.orders.filter (fun p => p.1 != id) }

/-- Python truthiness of an optional string (`None` and `""` are falsy). -/
def optStrTruthy : Option String → Bool
  | none => false
  | some s => s != ""

/-- Python truthiness of an optional int (`None` and `0` are falsy). -/
def optIntTruthy : Option Int → Bool
  | none => false
  | some n => n != 0

/-- Python `f"{x}"` on an optional string: `None` prints as "None". -/
def pyStrOpt : Option String → String
  | none => "None"
  | some s => s

namespace EventService

/-- Validated payload for event creation, from app/schemas/event.py
(EventCreate); the pydantic validator enforces total_capacity > 0. -/
structure EventCreate where
  title : String
  location : String
  total_capacity : Int
  ticket_price : Rat
  is_published : Bool
deriving Repr, DecidableEq

/-- Validated payload for event update, from app/schemas/event.py
(EventUpdate); unset fields are `none` (pydantic exclude_unset). -/
structure EventUpdate where
  title : Option String := none
  location : Option String := none
  total_capacity : Option Int := none
  ticket_price : Option Rat := none
  is_published : Option Bool := none
  is_canceled : Option Bool := none
deriving Repr, DecidableEq

/-- EventService.create (event_service.py lines 62-86): the new event
starts with `available_tickets = total_capacity`. -/
def create (db : Db) (newId : Int) (c : EventCreate) : Db :=
  let e : Event :=
    { title := c.title
      location := c.location
      total_capacity := c.total_capacity
      available_tickets := c.total_capacity
      ticket_price := c.ticket_price
      is_published := c.is_published
      is_canceled := false }
  { db with events := db.events ++ [(newId, e)] }

/-- The field-assignment loop of EventService.update, applied to an
already-computed `available_tickets` value (the `update_data` dict with
`available_tickets` added). -/
def applyFields (e : Event) (u : EventUpdate) (newAvail : Option Int) : Event :=
  let e := match u.title with | some t => { e with title := t } | none => e
  let e := match u.location with | some l => { e with location := l } | none => e
  let e := match u.total_capacity with | some c => { e with total_capacity := c } | none => e
  let e := match newAvail with | some a => { e with available_tickets := a } | none => e
  let e := match u.ticket_price with | some p => { e with ticket_price := p } | none => e
  let e := match u.is_published with | some b => { e with is_published := b } | none => e
  match u.is_canceled with | some b => { e with is_canceled := b } | none => e

/-- EventService.update (event_service.py lines 88-125) on a fetched event:
if total_capacity is being changed, available_tickets is adjusted by the
capacity delta; a negative result triggers the tickets-sold check and the
ValueError, raised before any attribute is assigned. -/
def updateEvent (e : Event) (u : EventUpdate) : Except String Event :=
  match u.total_capacity with
  | none => .ok (applyFields e u none)
  | some newCap =>
    let capacity_diff := newCap - e.total_capacity
    let new_available := e.available_tickets + capacity_diff
    if new_available < 0 then
      let tickets_sold := e.total_capacity - e.available_tickets
      if tickets_sold > newCap then
        .error ("Cannot reduce capacity below tickets already sold (" ++
          toString tickets_sold ++ ")")
      else
        .ok (applyFields e u (some 0))
    else
      .ok (applyFields e u (some new_available))

/-- EventService.update at the store level: the endpoint fetches the event
(404 when absent, app/api/events.py) and the service commits the mutated
object. -/
def update (db : Db) (id : Int) (u : EventUpdate) : Except String Db :=
  match findEvent db id with
  | none => .error "Event not found"
  | some e => (updateEvent e u).map (setEvent db id)

/-- EventService.decrease_available_tickets (event_service.py lines
143-165). -/
def decrease_available_tickets (db : Db) (event_id quantity : Int) : Bool × Db :=
  match findEvent db event_id with
  | none => (false, db)
  | some e =>
    if e.is_canceled then (false, db)
    else if e.available_tickets < quantity then (false, db)
    else (true, setEvent db event_id { e with available_tickets := e.available_tickets - quantity })

/-- EventService.increase_available_tickets (event_service.py lines
167-186): clamped at total_capacity. -/
def increase_available_tickets (db : Db) (event_id quantity : Int) : Bool × Db :=
  match findEvent db event_id with
  | none => (false, db)
  | some e =>
    (true, setEvent db event_id
      { e with available_tickets := min (e.available_tickets + quantity) e.total_capacity })

end EventService

/-- The Order(...) record built by OrderService.create (order_service.py
lines 73-85): status PENDING, total_amount = unit_price * quantity, no
payment id, no paid_at. -/
def mkPendingOrder (user_id event_id quantity : Int) (payment_method : String)
    (unit_price : Rat) : Order :=
  { user_id := user_id
    event_id := event_id
    quantity := quantity
    unit_price := unit_price
    total_amount := unit_price * (quantity : Rat)
    status := .pending
    payment_id := none
    payment_method := payment_method
    paid_at := none }

namespace OrderService

/-- OrderService.create (order_service.py lines 67-104): the order row is
inserted and committed first, then tickets are reserved; on reservation
failure the row is deleted again and a ValueError is raised.  `newId` is
the autoincrement id assigned to the inserted row.  The result pairs the
outcome (order id or the ValueError message) with the final store. -/
def create (db : Db) (user_id event_id quantity : Int) (payment_method : String)
    (unit_price : Rat) (newId : Int) : Except String Int × Db :=
  let db_order : Order := mkPendingOrder user_id event_id quantity payment_method unit_price
  let db1 := insertOrder db newId db_order
  let res := EventService.decrease_available_tickets db1 event_id quantity
  if res.1 then (.ok newId, res.2)
  else (.error "Failed to reserve tickets. Not enough available tickets.", deleteOrder res.2 newId)

/-- OrderService.update_status (order_service.py lines 106-134): sets the
status unconditionally, stores the payment id only when truthy, stamps
paid_at (with the current clock `now`) only when the new status is PAID. -/
def update_status (db : Db) (order_id : Int) (status : OrderStatus)
    (payment_id : Option String) (now : Int) : Except String Db :=
  match findOrder db order_id with
  | none => .error "Order not found"
  | some order =>
    let order := { order with status := status }
    let order := if optStrTruthy payment_id then { order with payment_id := payment_id } else order
    let order := if status = .paid then { order with paid_at := some now } else order
    .ok (setOrder db order_id order)

/-- OrderService.cancel_order (order_service.py lines 136-158): sets status
CANCELED; when a truthy refund id is given, payment_id becomes the f-string
of the old payment_id (so None prints as "None"), ":refund:", and the
refund id. -/
def cancel_order (db : Db) (order_id : Int) (refund_id : Option String) : Except String Db :=
  match findOrder db order_id with
  | none => .error "Order not found"
  | some order =>
    let order := { order with status := OrderStatus.canceled }
    let newPid := some (pyStrOpt order.payment_id ++ ":refund:" ++ pyStrOpt refund_id)
    let order :=
      if optStrTruthy refund_id then { order with payment_id := newPid }
      else order
    .ok (setOrder db order_id order)

end OrderService

/-- Card fields of the payment request, from app/schemas/order.py
(PaymentProcess): all optional. -/
structure PaymentDetails where
  card_number : Option String
  card_exp_month : Option Int
  card_exp_year : Option Int
  card_cvc : Option String
deriving Repr, DecidableEq

/-- Python `str(x).replace(" ", "").replace("-", "")`. -/
def stripSeps (s : String) : String :=
  String.mk (s.data.filter (fun c => c != ' ' && c != '-'))

/-- Python `str.isdigit` restricted to ASCII input: nonempty and all
decimal digits. -/
def pyIsDigit (s : String) : Bool :=
  s.length > 0 && s.data.all (fun c => c.isDigit)

namespace PaymentService

/-- PaymentService._validate_credit_card — the second, shadowing definition
(payment_service.py lines 373-407), the one bound on the effective
PaymentService class.  Field presence uses Python truthiness (the endpoint
always passes all four keys); the expiry check is the range test
1 <= month <= 12 and 2000 <= year <= 2100, with no comparison against the
current date. -/
def validate_credit_card (d : PaymentDetails) : Bool :=
  if !optStrTruthy d.card_number then false
  else if !optIntTruthy d.card_exp_month then false
  else if !optIntTruthy d.card_exp_year then false
  else if !optStrTruthy d.card_cvc then false
  else
    let card_number := stripSeps (pyStrOpt d.card_number)
    if !pyIsDigit card_number || !(13 ≤ card_number.length && card_number.length ≤ 19) then false
    else
      let exp_month := d.card_exp_month.getD 0
      let exp_year := d.card_exp_year.getD 0
      if !(1 ≤ exp_month && exp_month ≤ 12) || !(2000 ≤ exp_year && exp_year ≤ 2100) then false
      else
        let cvc := pyStrOpt d.card_cvc
        if !pyIsDigit cvc || !(3 ≤ cvc.length && cvc.length ≤ 4) then false
        else true

/-- The first _validate_credit_card definition (payment_service.py lines
226-292), shadowed at import time by the one above.  It does compare the
expiry against the current date (`nowY`, `nowM` stand for
datetime.now().year/.month); its int() conversions cannot fail here since
the schema delivers the expiry fields as integers. -/
def validate_credit_card_shadowed (nowY nowM : Int) (d : PaymentDetails) : Bool :=
  if !optStrTruthy d.card_number then false
  else if !optIntTruthy d.card_exp_month then false
  else if !optIntTruthy d.card_exp_year then false
  else if !optStrTruthy d.card_cvc then false
  else
    let card_number := stripSeps (pyStrOpt d.card_number)
    if !pyIsDigit card_number || !(13 ≤ card_number.length && card_number.length ≤ 19) then false
    else
      let exp_month := d.card_exp_month.getD 0
      let exp_year := d.card_exp_year.getD 0
      if !(1 ≤ exp_month && exp_month ≤ 12) then false
      else if exp_year < nowY || (exp_year = nowY && exp_month < nowM) then false
      else
        let cvc := pyStrOpt d.card_cvc
        if !pyIsDigit cvc || !(3 ≤ cvc.length && cvc.length ≤ 4) then false
        else true

/-- Result dict of PaymentService.process_payment. -/
structure PaymentResult where
  success : Bool
  payment_id : Option String
  error : Option String
deriving Repr, DecidableEq

/-- PaymentService.process_payment — second, shadowing definition
(payment_service.py lines 331-371): validates card details for the
credit_card method, then always succeeds (no decline simulation in the
effective class); `uuidHex` stands for `uuid.uuid4().hex[:10]`. -/
def process_payment (amount : Rat) (payment_method : String) (d : PaymentDetails)
    (uuidHex : String) : PaymentResult :=
  let _ := amount
  if payment_method = "credit_card" && !validate_credit_card d then
    { success := false, payment_id := none, error := some "Invalid credit card details" }
  else
    { success := true, payment_id := some ("payment_" ++ uuidHex), error := none }

end PaymentService

/-- Response body of the payment endpoint, from app/schemas/order.py
(PaymentResponse). -/
structure PaymentResponse where
  order_id : Int
  status : OrderStatus
  payment_id : Option String
  message : String
deriving Repr, DecidableEq

/-- An aborted request: HTTPException(status_code, detail).  Raising it
before any commit leaves the store untouched. -/
abbrev HttpError := Int × String

namespace OrdersApi

/-- process_payment endpoint (app/api/orders.py; the effective second
definition, lines 449-536 — the shadowed first definition, lines 161-248,
has identical logic for lookup, the already-paid return and the canceled
guard).  The authenticated user is assumed to own the order (authorization
is out of the embedded core).  `uuidHex` feeds the gateway payment-id
generation; `now` is the clock for paid_at. -/
def process_payment (db : Db) (order_id : Int) (pd : PaymentDetails)
    (payment_method : String) (uuidHex : String) (now : Int) :
    Except HttpError (PaymentResponse × Db) :=
  match findOrder db order_id with
  | none => .error (404, "Order not found")
  | some order =>
    if order.status = .paid then
      .ok ({ order_id := order_id, status := order.status,
             payment_id := order.payment_id, message := "Order is already paid" }, db)
    else if order.status = .canceled then
      .error (400, "Cannot process payment for a canceled order")
    else
      let payment_result :=
        PaymentService.process_payment order.total_amount payment_method pd uuidHex
      if payment_result.success then
        match OrderService.update_status db order_id .paid payment_result.payment_id now with
        | .ok db1 =>
          .ok ({ order_id := order_id, status := .paid,
                 payment_id := payment_result.payment_id,
                 message := "Payment successful" }, db1)
        | .error e => .error (500, e)
      else
        .ok ({ order_id := order_id, status := order.status, payment_id := none,
               message := "Payment failed: " ++ pyStrOpt payment_result.error }, db)

/-- cancel_order endpoint (app/api/orders.py; effective second definition,
lines 539-599 — the shadowed first definition, lines 251-311, has the same
guard and release sequence).  Only an already-CANCELED status is rejected;
a placeholder refund id is attached when the order was PAID; afterwards the
quantity of the order is released back to the event (the boolean result of the
release is ignored by the endpoint). -/
def cancel_order (db : Db) (order_id : Int) : Except HttpError Db :=
  match findOrder db order_id with
  | none => .error (404, "Order not found")
  | some order =>
    if order.status = .canceled then
      .error (400, "Order is already canceled")
    else
      let refund_id : Option String :=
        if order.status = .paid then some "refund_123" else none
      match OrderService.cancel_order db order_id refund_id with
      | .error e => .error (500, e)
      | .ok db1 =>
        let res := EventService.increase_available_tickets db1 order.event_id order.quantity
        .ok res.2

end OrdersApi

/-- The event invariant of the spec: 0 <= available_tickets <= total_capacity. -/
def EventInv (e : Event) : Prop :=
  0 ≤ e.available_tickets ∧ e.available_tickets ≤ e.total_capacity

instance : DecidablePred EventInv := fun e => by unfold EventInv; infer_instance

/-- Every event row of the store satisfies the inventory invariant. -/
def EventsInv (db : Db) : Prop := ∀ p ∈ db.events, EventInv p.2

/-- Every order row has positive quantity (enforced on creation by the
pydantic schema OrderCreate, quantity = Field(..., gt=0)). -/
def OrdersPos (db : Db) : Prop := ∀ p ∈ db.orders, 0 < p.2.quantity

instance (db : Db) : Decidable (EventsInv db) := by unfold EventsInv; infer_instance

instance (db : Db) : Decidable (OrdersPos db) := by unfold OrdersPos; infer_instance

/-- The card-validation rule set of the claim, written from the words of the spec:
all four fields present (Python-truthy), number 13-19 digits after
stripping space and dash separators, month in 1-12, the year/month
combination not in the past relative to the current date (nowY, nowM),
cvc 3-4 digits. -/
def CardRulesOk (nowY nowM : Int) (d : PaymentDetails) : Prop :=
  optStrTruthy d.card_number = true ∧
  optIntTruthy d.card_exp_month = true ∧
  optIntTruthy d.card_exp_year = true ∧
  optStrTruthy d.card_cvc = true ∧
  pyIsDigit (stripSeps (pyStrOpt d.card_number)) = true ∧
  13 ≤ (stripSeps (pyStrOpt d.card_number)).length ∧
  (stripSeps (pyStrOpt d.card_number)).length ≤ 19 ∧
  1 ≤ d.card_exp_month.getD 0 ∧ d.card_exp_month.getD 0 ≤ 12 ∧
  (nowY < d.card_exp_year.getD 0 ∨
    (d.card_exp_year.getD 0 = nowY ∧ nowM ≤ d.card_exp_month.getD 0)) ∧
  pyIsDigit (pyStrOpt d.card_cvc) = true ∧
  3 ≤ (pyStrOpt d.card_cvc).length ∧ (pyStrOpt d.card_cvc).length ≤ 4

instance (nowY nowM : Int) (d : PaymentDetails) : Decidable (CardRulesOk nowY nowM d) := by
  unfold CardRulesOk
  infer_instance

/-- The rule set the effective validator enforces: as CardRulesOk but with
the date comparison replaced by the fixed range 2000 <= year <= 2100. -/
def CardRulesAmended (d : PaymentDetails) : Prop :=
  optStrTruthy d.card_number = true ∧
  optIntTruthy d.card_exp_month = true ∧
  optIntTruthy d.card_exp_year = true ∧
  optStrTruthy d.card_cvc = true ∧
  pyIsDigit (stripSeps (pyStrOpt d.card_number)) = true ∧
  13 ≤ (stripSeps (pyStrOpt d.card_number)).length ∧
  (stripSeps (pyStrOpt d.card_number)).length ≤ 19 ∧
  1 ≤ d.card_exp_month.getD 0 ∧ d.card_exp_month.getD 0 ≤ 12 ∧
  2000 ≤ d.card_exp_year.getD 0 ∧ d.card_exp_year.getD 0 ≤ 2100 ∧
  pyIsDigit (pyStrOpt d.card_cvc) = true ∧
  3 ≤ (pyStrOpt d.card_cvc).length ∧ (pyStrOpt d.card_cvc).length ≤ 4

instance (d : PaymentDetails) : Decidable (CardRulesAmended d) := by
  unfold CardRulesAmended
  infer_instance

/-! Concrete inputs used by the witness and counterexample theorems. -/

/-- A published event with capacity 10 and 5 tickets available. -/
def wEv : Event :=
  { title := "Concert", location := "Hall", total_capacity := 10,
    available_tickets := 5, ticket_price := 3, is_published := true,
    is_canceled := false }

/-- A pending order for 3 tickets of event 1. -/
def wOrdPending : Order :=
  { user_id := 1, event_id := 1, quantity := 3, unit_price := 3,
    total_amount := 9, status := .pending, payment_id := none,
    payment_method := "credit_card", paid_at := none }

/-- A paid order for 2 tickets of event 1. -/
def wOrdPaid : Order :=
  { user_id := 1, event_id := 1, quantity := 2, unit_price := 3,
    total_amount := 6, status := .paid, payment_id := some "payment_abc",
    payment_method := "credit_card", paid_at := some 100 }

/-- A canceled order for 2 tickets of event 1. -/
def wOrdCanceled : Order := { wOrdPaid with status := .canceled }

/-- A refunded order for 2 tickets of event 1. -/
def wOrdRefunded : Order := { wOrdPaid with status := .refunded }

/-- A paid order with a null payment_id (reachable through update_status). -/
def wOrdPaidNoPid : Order := { wOrdPaid with payment_id := none }

/-- Store with one event and one pending order. -/
def wDb : Db := ⟨[(1, wEv)], [(1, wOrdPending)]⟩

/-- Store with one event and one refunded order (id 7). -/
def wDbRefunded : Db := ⟨[(1, wEv)], [(7, wOrdRefunded)]⟩

/-- Store with one event and one canceled order (id 7). -/
def wDbCanceled : Db := ⟨[(1, wEv)], [(7, wOrdCanceled)]⟩

/-- Store with one event and one paid order (id 5). -/
def wDbPaid : Db := ⟨[(1, wEv)], [(5, wOrdPaid)]⟩

/-- Store with one event and one paid order with null payment_id (id 4). -/
def wDbPaidNoPid : Db := ⟨[(1, wEv)], [(4, wOrdPaidNoPid)]⟩

/-- A card that expired in January 2020 but passes the effective
2000-2100 year-range check of the validator. -/
def wCardExpired : PaymentDetails :=
  ⟨some "4111 1111 1111 1111", some 1, some 2020, some "123"⟩

/-- A card whose number is too short to be valid. -/
def wCardShort : PaymentDetails :=
  ⟨some "4111", some 1, some 2030, some "123"⟩

section ListLemmas

variable {α : Type}

theorem find?_update_self (l : List (Int × α)) (id : Int) (x : α) :
    (l.map (fun p => if p.1 == id then (p.1, x) else p)).find? (fun p => p.1 == id) =
      (l.find? (fun p => p.1 == id)).map (fun p => (p.1, x)) := by
  induction l with
  | nil => rfl
  | cons p l ih =>
    by_cases hp : (p.1 == id) = true
    · simp [List.find?, hp]
    · simp only [List.map_cons, List.find?]
      rw [if_neg hp]
      simp only [hp]
      exact ih

theorem find?_update_ne (l : List (Int × α)) (id j : Int) (x : α) (h : j ≠ id) :
    (l.map (fun p => if p.1 == id then (p.1, x) else p)).find? (fun p => p.1 == j) =
      l.find? (fun p => p.1 == j) := by
  induction l with
  | nil => rfl
  | cons p l ih =>
    by_cases hp : (p.1 == id) = true
    · have hj : (p.1 == j) = false := by
        have : p.1 = id := by exact_mod_cast beq_iff_eq.mp hp
        subst this
        exact beq_eq_false_iff_ne.mpr (fun hne => h hne.symm)
      simp only [List.map_cons, List.find?]
      rw [if_pos hp]
      simp only [hj]
      exact ih
    · simp only [List.map_cons, List.find?]
      rw [if_neg hp]
      by_cases hj : (p.1 == j) = true
      · simp [hj]
      · simp only [hj, Bool.false_eq_true, not_false_eq_true]
        simp only [hj] at *
        exact ih

theorem find?_eq_none_all {l : List (Int × α)} {id : Int}
    (h : l.find? (fun p => p.1 == id) = none) : ∀ p ∈ l, (p.1 == id) = false := by
  induction l with
  | nil => intro p hp; cases hp
  | cons q l ih =>
    intro p hp
    by_cases hq : (q.1 == id) = true
    · simp [List.find?, hq] at h
    · simp only [List.find?, hq] at h
      rcases List.mem_cons.mp hp with h1 | h1
      · subst h1; simpa using hq
      · exact ih h p h1

theorem filter_ne_of_find?_none {l : List (Int × α)} {id : Int}
    (h : l.find? (fun p => p.1 == id) = none) :
    l.filter (fun p => p.1 != id) = l := by
  apply List.filter_eq_self.mpr
  intro p hp
  have := find?_eq_none_all h p hp
  simp [bne, this]

theorem find?_append_fresh {l : List (Int × α)} {id : Int} (x : α)
    (h : l.find? (fun p => p.1 == id) = none) :
    (l ++ [(id, x)]).find? (fun p => p.1 == id) = some (id, x) := by
  induction l with
  | nil => simp [List.find?]
  | cons q l ih =>
    by_cases hq : (q.1 == id) = true
    · simp [List.find?, hq] at h
    · simp only [List.find?, hq] at h
      simp only [List.cons_append, List.find?, hq]
      exact ih h

theorem find?_mem_eq {l : List (Int × α)} {id : Int} {p : Int × α}
    (h : l.find? (fun q => q.1 == id) = some p) : p ∈ l ∧ p.1 = id := by
  induction l with
  | nil => cases h
  | cons q l ih =>
    by_cases hq : (q.1 == id) = true
    · simp only [List.find?, hq] at h
      cases h
      exact ⟨List.mem_cons_self _ _, by exact_mod_cast beq_iff_eq.mp hq⟩
    · simp only [List.find?, hq] at h
      have := ih h
      exact ⟨List.mem_cons_of_mem _ this.1, this.2⟩

end ListLemmas

theorem findEvent_setEvent_self (db : Db) (id : Int) (e : Event) :
    findEvent (setEvent db id e) id = (findEvent db id).map (fun _ => e) := by
  show ((db.events.map _).find? _).map _ = _
  rw [find?_update_self]
  unfold findEvent
  cases db.events.find? (fun p => p.1 == id) <;> rfl

theorem findEvent_setEvent_ne (db : Db) (id j : Int) (e : Event) (h : j ≠ id) :
    findEvent (setEvent db id e) j = findEvent db j := by
  show ((db.events.map _).find? _).map _ = _
  rw [find?_update_ne _ _ _ _ h]
  rfl

theorem orders_setEvent (db : Db) (id : Int) (e : Event) :
    (setEvent db id e).orders = db.orders := rfl

theorem findOrder_setOrder_self (db : Db) (id : Int) (o : Order) :
    findOrder (setOrder db id o) id = (findOrder db id).map (fun _ => o) := by
  show ((db.orders.map _).find? _).map _ = _
  rw [find?_update_self]
  unfold findOrder
  cases db.orders.find? (fun p => p.1 == id) <;> rfl

theorem events_setOrder (db : Db) (id : Int) (o : Order) :
    (setOrder db id o).events = db.events := rfl

theorem findEvent_mem {db : Db} {id : Int} {e : Event} (h : findEvent db id = some e) :
    (id, e) ∈ db.events := by
  unfold findEvent at h
  cases hf : db.events.find? (fun p => p.1 == id) with
  | none => rw [hf] at h; cases h
  | some p =>
    rw [hf] at h
    obtain ⟨hmem, hfst⟩ := find?_mem_eq hf
    cases h
    rcases p with ⟨a, b⟩
    cases hfst
    exact hmem

theorem findOrder_mem {db : Db} {id : Int} {o : Order} (h : findOrder db id = some o) :
    (id, o) ∈ db.orders := by
  unfold findOrder at h
  cases hf : db.orders.find? (fun p => p.1 == id) with
  | none => rw [hf] at h; cases h
  | some p =>
    rw [hf] at h
    obtain ⟨hmem, hfst⟩ := find?_mem_eq hf
    cases h
    rcases p with ⟨a, b⟩
    cases hfst
    exact hmem

theorem eventsInv_of_eq_events {db db' : Db} (h : EventsInv db)
    (he : db'.events = db.events) : EventsInv db' := by
  intro p hp
  rw [he] at hp
  exact h p hp

theorem eventsInv_setEvent {db : Db} {id : Int} {e : Event}
    (h : EventsInv db) (he : EventInv e) : EventsInv (setEvent db id e) := by
  intro p hp
  simp only [setEvent, List.mem_map] at hp
  obtain ⟨q, hq, hfq⟩ := hp
  by_cases hc : (q.1 == id) = true
  · rw [if_pos hc] at hfq
    rw [← hfq]
    exact he
  · rw [if_neg hc] at hfq
    rw [← hfq]
    exact h q hq

theorem eventInv_of_findEvent {db : Db} {id : Int} {e : Event}
    (h : EventsInv db) (hf : findEvent db id = some e) : EventInv e :=
  h (id, e) (findEvent_mem hf)

theorem eventsInv_decrease {db : Db} {eid q : Int}
    (h : EventsInv db) (hq : 0 ≤ q) :
    EventsInv (EventService.decrease_available_tickets db eid q).2 := by
  unfold EventService.decrease_available_tickets
  cases hf : findEvent db eid with
  | none => exact h
  | some e =>
    by_cases hc : e.is_canceled
    · simp only [hc, if_true]
      exact h
    · simp only [hc, if_false, Bool.false_eq_true]
      by_cases hlt : e.available_tickets < q
      · simp only [hlt, if_true]
        exact h
      · simp only [hlt, if_false]
        apply eventsInv_setEvent h
        have hinv := eventInv_of_findEvent h hf
        constructor
        · simp only []
          omega
        · simp only []
          have := hinv.2
          omega

theorem eventsInv_increase {db : Db} {eid q : Int}
    (h : EventsInv db) (hq : 0 ≤ q) :
    EventsInv (EventService.increase_available_tickets db eid q).2 := by
  unfold EventService.increase_available_tickets
  cases hf : findEvent db eid with
  | none => exact h
  | some e =>
    apply eventsInv_setEvent h
    have hinv := eventInv_of_findEvent h hf
    constructor
    · simp only []
      have h1 := hinv.1
      have h2 := hinv.2
      omega
    · simp only []
      omega

theorem applyFields_available (e : Event) (u : EventService.EventUpdate) (na : Option Int) :
    (EventService.applyFields e u na).available_tickets = na.getD e.available_tickets := by
  unfold EventService.applyFields
  rcases u with ⟨t, l, tc, tp, ip, ic⟩
  cases t <;> cases l <;> cases tc <;> cases na <;> cases tp <;> cases ip <;> cases ic <;> rfl

theorem applyFields_capacity (e : Event) (u : EventService.EventUpdate) (na : Option Int) :
    (EventService.applyFields e u na).total_capacity =
      u.total_capacity.getD e.total_capacity := by
  unfold EventService.applyFields
  rcases u with ⟨t, l, tc, tp, ip, ic⟩
  cases t <;> cases l <;> cases tc <;> cases na <;> cases tp <;> cases ip <;> cases ic <;> rfl

theorem eventInv_updateEvent {e e' : Event} {u : EventService.EventUpdate}
    (h : EventInv e) (hok : EventService.updateEvent e u = .ok e') : EventInv e' := by
  unfold EventService.updateEvent at hok
  cases htc : u.total_capacity with
  | none =>
    rw [htc] at hok
    cases hok
    constructor
    · rw [applyFields_available]
      exact h.1
    · rw [applyFields_available, applyFields_capacity, htc]
      exact h.2
  | some newCap =>
    rw [htc] at hok
    dsimp only at hok
    by_cases hneg : e.available_tickets + (newCap - e.total_capacity) < 0
    · rw [if_pos hneg] at hok
      by_cases hsold : e.total_capacity - e.available_tickets > newCap
      · rw [if_pos hsold] at hok
        cases hok
      · rw [if_neg hsold] at hok
        cases hok
        constructor
        · rw [applyFields_available]
          rfl
        · rw [applyFields_available, applyFields_capacity, htc]
          simp only [Option.getD_some]
          omega
    · rw [if_neg hneg] at hok
      cases hok
      constructor
      · rw [applyFields_available]
        simp only [Option.getD_some]
        omega
      · rw [applyFields_available, applyFields_capacity, htc]
        simp only [Option.getD_some]
        have := h.2
        omega

theorem eventsInv_update {db db' : Db} {id : Int} {u : EventService.EventUpdate}
    (h : EventsInv db) (hok : EventService.update db id u = .ok db') : EventsInv db' := by
  unfold EventService.update at hok
  cases hf : findEvent db id with
  | none => rw [hf] at hok; cases hok
  | some e =>
    rw [hf] at hok
    dsimp only at hok
    cases hu : EventService.updateEvent e u with
    | error msg => rw [hu] at hok; cases hok
    | ok e' =>
      rw [hu] at hok
      cases hok
      exact eventsInv_setEvent h (eventInv_updateEvent (eventInv_of_findEvent h hf) hu)

theorem eventsInv_orderCreate {db : Db} (h : EventsInv db)
    {uid eid q : Int} {pm : String} {price : Rat} {oid : Int} (hq : 0 ≤ q) :
    EventsInv (OrderService.create db uid eid q pm price oid).2 := by
  have h1 : EventsInv (insertOrder db oid (mkPendingOrder uid eid q pm price)) :=
    eventsInv_of_eq_events h rfl
  simp only [OrderService.create]
  split
  · exact eventsInv_decrease h1 hq
  · exact eventsInv_of_eq_events (eventsInv_decrease h1 hq) rfl

theorem cancelOrder_events {db db1 : Db} {oid : Int} {rid : Option String}
    (hok : OrderService.cancel_order db oid rid = .ok db1) : db1.events = db.events := by
  unfold OrderService.cancel_order at hok
  split at hok
  · cases hok
  · cases hok
    rfl

theorem eventsInv_cancelEndpoint {db db' : Db} (h : EventsInv db) (hpos : OrdersPos db)
    {oid : Int} (hok : OrdersApi.cancel_order db oid = .ok db') : EventsInv db' := by
  unfold OrdersApi.cancel_order at hok
  split at hok
  · cases hok
  · rename_i o ho
    split at hok
    · cases hok
    · split at hok
      all_goals
        dsimp only at hok
        split at hok
        · cases hok
        · rename_i db1 hcanc
          cases hok
          have hq : 0 < o.quantity := hpos (oid, o) (findOrder_mem ho)
          have h1 : EventsInv db1 := eventsInv_of_eq_events h (cancelOrder_events hcanc)
          exact eventsInv_increase h1 (le_of_lt hq)

/-- C1: every core operation — event creation (with its schema-validated
positive capacity), ticket reservation, ticket release, capacity change,
order creation (schema-validated positive quantity), and order
cancellation via the endpoint (order quantities in the store being
positive) — preserves 0 <= available_tickets <= total_capacity on every
event of the store, provided it held before. -/
theorem c1_core_operations_preserve_inventory_invariant
    (db : Db) (h : EventsInv db) :
    (∀ newId c, 0 < c.total_capacity → EventsInv (EventService.create db newId c)) ∧
    (∀ eid q, 0 ≤ q → EventsInv (EventService.decrease_available_tickets db eid q).2) ∧
    (∀ eid q, 0 ≤ q → EventsInv (EventService.increase_available_tickets db eid q).2) ∧
    (∀ eid u db', EventService.update db eid u = .ok db' → EventsInv db') ∧
    (∀ uid eid q pm price oid, 0 < q →
      EventsInv (OrderService.create db uid eid q pm price oid).2) ∧
    (OrdersPos db → ∀ oid db', OrdersApi.cancel_order db oid = .ok db' → EventsInv db') := by
  refine ⟨?_, ?_, ?_, ?_, ?_, ?_⟩
  · intro newId c hc p hp
    unfold EventService.create at hp
    dsimp only at hp
    rcases List.mem_append.mp hp with h1 | h1
    · exact h p h1
    · rcases List.mem_singleton.mp h1 with rfl
      exact ⟨le_of_lt hc, le_refl _⟩
  · intro eid q hq
    exact eventsInv_decrease h hq
  · intro eid q hq
    exact eventsInv_increase h hq
  · intro eid u db' hok
    exact eventsInv_update h hok
  · intro uid eid q pm price oid hq
    exact eventsInv_orderCreate h (le_of_lt hq)
  · intro hpos oid db' hok
    exact eventsInv_cancelEndpoint h hpos hok

/-- Witness for C1 at a concrete store: the hypotheses hold for wDb and the
reservation clause yields the preserved invariant for a reservation of 2
tickets on event 1. -/
theorem c1_core_operations_preserve_inventory_invariant_witness :
    EventsInv wDb ∧ (0:Int) ≤ 2 ∧
      EventsInv (EventService.decrease_available_tickets wDb 1 2).2 :=
  ⟨by decide, by decide,
    (c1_core_operations_preserve_inventory_invariant wDb (by decide)).2.1 1 2 (by decide)⟩

theorem decrease_orders (db : Db) (eid q : Int) :
    (EventService.decrease_available_tickets db eid q).2.orders = db.orders := by
  unfold EventService.decrease_available_tickets
  cases findEvent db eid with
  | none => rfl
  | some e =>
    by_cases hc : e.is_canceled <;> by_cases hlt : e.available_tickets < q <;>
      simp [hc, hlt, orders_setEvent]

theorem decrease_fail_eq {db : Db} {eid q : Int}
    (h : (EventService.decrease_available_tickets db eid q).1 = false) :
    (EventService.decrease_available_tickets db eid q).2 = db := by
  unfold EventService.decrease_available_tickets at *
  cases hf : findEvent db eid with
  | none => rfl
  | some e =>
    rw [hf] at h
    by_cases hc : e.is_canceled
    · simp [hc]
    · by_cases hlt : e.available_tickets < q
      · simp [hc, hlt]
      · simp [hc, hlt] at h

theorem decrease_success {db : Db} {eid q : Int}
    (h : (EventService.decrease_available_tickets db eid q).1 = true) :
    ∃ e, findEvent db eid = some e ∧ e.is_canceled = false ∧ q ≤ e.available_tickets ∧
      EventService.decrease_available_tickets db eid q =
        (true, setEvent db eid { e with available_tickets := e.available_tickets - q }) := by
  unfold EventService.decrease_available_tickets at *
  cases hf : findEvent db eid with
  | none => rw [hf] at h; cases h
  | some e =>
    rw [hf] at h
    by_cases hc : e.is_canceled
    · simp [hc] at h
    · by_cases hlt : e.available_tickets < q
      · simp [hc, hlt] at h
      · exact ⟨e, rfl, by simpa using hc, not_lt.mp hlt, by simp [hc, hlt]⟩

/-- C4: reserve (decrease_available_tickets) returns false and leaves
the store untouched when the event is absent, canceled, or short of
tickets; otherwise it returns true and decrements the available_tickets of that
event by exactly the quantity, touching nothing else. -/
theorem c4_reserve_characterization (db : Db) (eid q : Int) :
    (findEvent db eid = none →
      EventService.decrease_available_tickets db eid q = (false, db)) ∧
    (∀ e, findEvent db eid = some e → e.is_canceled = true →
      EventService.decrease_available_tickets db eid q = (false, db)) ∧
    (∀ e, findEvent db eid = some e → e.is_canceled = false → e.available_tickets < q →
      EventService.decrease_available_tickets db eid q = (false, db)) ∧
    (∀ e, findEvent db eid = some e → e.is_canceled = false → q ≤ e.available_tickets →
      EventService.decrease_available_tickets db eid q =
        (true, setEvent db eid { e with available_tickets := e.available_tickets - q }) ∧
      findEvent (EventService.decrease_available_tickets db eid q).2 eid =
        some { e with available_tickets := e.available_tickets - q } ∧
      (∀ j, j ≠ eid →
        findEvent (EventService.decrease_available_tickets db eid q).2 j = findEvent db j) ∧
      (EventService.decrease_available_tickets db eid q).2.orders = db.orders) := by
  refine ⟨?_, ?_, ?_, ?_⟩
  · intro h
    unfold EventService.decrease_available_tickets
    rw [h]
  · intro e hf hc
    unfold EventService.decrease_available_tickets
    rw [hf]
    simp [hc]
  · intro e hf hc hlt
    unfold EventService.decrease_available_tickets
    rw [hf]
    simp [hc, hlt]
  · intro e hf hc hge
    have heq : EventService.decrease_available_tickets db eid q =
        (true, setEvent db eid { e with available_tickets := e.available_tickets - q }) := by
      unfold EventService.decrease_available_tickets
      rw [hf]
      simp [hc, not_lt.mpr hge]
    refine ⟨heq, ?_, ?_, ?_⟩
    · rw [heq]
      rw [findEvent_setEvent_self, hf]
      rfl
    · intro j hj
      rw [heq]
      exact findEvent_setEvent_ne db eid j _ hj
    · rw [heq]
      rfl

/-- Witness for C4: on the concrete store, reserving 2 of the 5 available
tickets of event 1 succeeds and leaves exactly 3. -/
theorem c4_reserve_characterization_witness :
    findEvent wDb 1 = some wEv ∧ wEv.is_canceled = false ∧
      (2:Int) ≤ wEv.available_tickets ∧
      EventService.decrease_available_tickets wDb 1 2 =
        (true, setEvent wDb 1 { wEv with available_tickets := wEv.available_tickets - 2 }) :=
  ⟨rfl, rfl, by decide,
    ((c4_reserve_characterization wDb 1 2).2.2.2 wEv rfl rfl (by decide)).1⟩

/-- C5: release (increase_available_tickets) fails only when the event is
absent (leaving the store untouched); otherwise it sets available_tickets
to min(available_tickets + quantity, total_capacity), returns true, and
touches nothing else. -/
theorem c5_release_characterization (db : Db) (eid q : Int) :
    (findEvent db eid = none →
      EventService.increase_available_tickets db eid q = (false, db)) ∧
    (∀ e, findEvent db eid = some e →
      EventService.increase_available_tickets db eid q =
        (true, setEvent db eid
          { e with available_tickets := min (e.available_tickets + q) e.total_capacity }) ∧
      findEvent (EventService.increase_available_tickets db eid q).2 eid =
        some { e with available_tickets := min (e.available_tickets + q) e.total_capacity } ∧
      (∀ j, j ≠ eid →
        findEvent (EventService.increase_available_tickets db eid q).2 j = findEvent db j) ∧
      (EventService.increase_available_tickets db eid q).2.orders = db.orders) := by
  refine ⟨?_, ?_⟩
  · intro h
    unfold EventService.increase_available_tickets
    rw [h]
  · intro e hf
    have heq : EventService.increase_available_tickets db eid q =
        (true, setEvent db eid
          { e with available_tickets := min (e.available_tickets + q) e.total_capacity }) := by
      unfold EventService.increase_available_tickets
      rw [hf]
    refine ⟨heq, ?_, ?_, ?_⟩
    · rw [heq]
      rw [findEvent_setEvent_self, hf]
      rfl
    · intro j hj
      rw [heq]
      exact findEvent_setEvent_ne db eid j _ hj
    · rw [heq]
      rfl

/-- Witness for C5: releasing 7 tickets onto event 1 (5 of 10 available)
clamps at the capacity of 10. -/
theorem c5_release_characterization_witness :
    findEvent wDb 1 = some wEv ∧
      EventService.increase_available_tickets wDb 1 7 =
        (true, setEvent wDb 1
          { wEv with available_tickets := min (wEv.available_tickets + 7) wEv.total_capacity }) :=
  ⟨rfl, ((c5_release_characterization wDb 1 7).2 wEv rfl).1⟩

/-- C6: a capacity update fails with the capacity-violation ValueError
exactly when the tickets already sold (total_capacity -
available_tickets) exceed the new capacity — the raise happens before any
attribute assignment, so nothing is mutated (the Except result carries no
modified store); otherwise the committed event carries the new capacity
and available_tickets adjusted by the delta. -/
theorem c6_resize_characterization (db : Db) (eid : Int) (u : EventService.EventUpdate)
    (e : Event) (newCap : Int) (hf : findEvent db eid = some e)
    (hcap : u.total_capacity = some newCap) :
    (e.total_capacity - e.available_tickets > newCap →
      EventService.update db eid u =
        .error ("Cannot reduce capacity below tickets already sold (" ++
          toString (e.total_capacity - e.available_tickets) ++ ")")) ∧
    (e.total_capacity - e.available_tickets ≤ newCap →
      ∃ e', EventService.update db eid u = .ok (setEvent db eid e') ∧
        e'.available_tickets = e.available_tickets + (newCap - e.total_capacity) ∧
        e'.total_capacity = newCap) := by
  constructor
  · intro hsold
    unfold EventService.update
    rw [hf]
    dsimp only
    unfold EventService.updateEvent
    rw [hcap]
    dsimp only
    have hneg : e.available_tickets + (newCap - e.total_capacity) < 0 := by omega
    rw [if_pos hneg, if_pos hsold]
    rfl
  · intro hsold
    unfold EventService.update
    rw [hf]
    dsimp only
    unfold EventService.updateEvent
    rw [hcap]
    dsimp only
    have hneg : ¬(e.available_tickets + (newCap - e.total_capacity) < 0) := by omega
    rw [if_neg hneg]
    refine ⟨EventService.applyFields e u (some (e.available_tickets + (newCap - e.total_capacity))),
      rfl, ?_, ?_⟩
    · rw [applyFields_available]
      rfl
    · rw [applyFields_capacity, hcap]
      rfl

/-- Witness for C6: shrinking event 1 (capacity 10, 5 sold) to capacity 3
fails with the capacity-violation error. -/
theorem c6_resize_characterization_witness :
    findEvent wDb 1 = some wEv ∧
      (EventService.EventUpdate.mk none none (some 3) none none none).total_capacity = some 3 ∧
      wEv.total_capacity - wEv.available_tickets > 3 ∧
      EventService.update wDb 1 (EventService.EventUpdate.mk none none (some 3) none none none) =
        .error ("Cannot reduce capacity below tickets already sold (" ++
          toString (wEv.total_capacity - wEv.available_tickets) ++ ")") :=
  ⟨rfl, rfl, by decide,
    (c6_resize_characterization wDb 1 _ wEv 3 rfl rfl).1 (by decide)⟩

theorem findOrder_congr_orders {db db' : Db} (h : db'.orders = db.orders) (j : Int) :
    findOrder db' j = findOrder db j := by
  unfold findOrder
  rw [h]

theorem findOrder_insert_fresh {db : Db} {oid : Int} (o : Order)
    (h : findOrder db oid = none) :
    findOrder (insertOrder db oid o) oid = some o := by
  unfold findOrder at *
  have hn : db.orders.find? (fun p => p.1 == oid) = none := by
    cases hx : db.orders.find? (fun p => p.1 == oid) with
    | none => rfl
    | some p => rw [hx] at h; cases h
  show ((db.orders ++ [(oid, o)]).find? (fun p => p.1 == oid)).map _ = _
  rw [find?_append_fresh o hn]
  rfl

theorem deleteOrder_insertOrder {db : Db} {oid : Int} {o : Order}
    (h : findOrder db oid = none) : deleteOrder (insertOrder db oid o) oid = db := by
  have hn : db.orders.find? (fun p => p.1 == oid) = none := by
    unfold findOrder at h
    cases hx : db.orders.find? (fun p => p.1 == oid) with
    | none => rfl
    | some p => rw [hx] at h; cases h
  unfold deleteOrder insertOrder
  cases db with
  | mk evs ords =>
    simp only [Db.mk.injEq, true_and]
    rw [List.filter_append]
    rw [filter_ne_of_find?_none hn]
    simp

/-- C2: order creation is atomic at the level of the final store.  With a
fresh order id: if the reservation fails, the returned error is the
inventory ValueError and the final store equals the initial one (the
inserted order row has been deleted again, no decrement persists); if
creation succeeds, the final store holds the PENDING order row and that
available_tickets of the event decremented by exactly the quantity of the order. -/
theorem c2_order_creation_atomic (db : Db) (uid eid q : Int) (pm : String) (price : Rat)
    (oid : Int) (hfresh : findOrder db oid = none) :
    (∀ msg, (OrderService.create db uid eid q pm price oid).1 = .error msg →
      (OrderService.create db uid eid q pm price oid).2 = db ∧
      msg = "Failed to reserve tickets. Not enough available tickets.") ∧
    (∀ k, (OrderService.create db uid eid q pm price oid).1 = .ok k →
      k = oid ∧
      findOrder (OrderService.create db uid eid q pm price oid).2 oid =
        some (mkPendingOrder uid eid q pm price) ∧
      ∃ e, findEvent db eid = some e ∧ e.is_canceled = false ∧ q ≤ e.available_tickets ∧
        findEvent (OrderService.create db uid eid q pm price oid).2 eid =
          some { e with available_tickets := e.available_tickets - q } ∧
        (∀ j, j ≠ eid →
          findEvent (OrderService.create db uid eid q pm price oid).2 j = findEvent db j)) := by
  have hfresh1 : findOrder (insertOrder db oid (mkPendingOrder uid eid q pm price)) oid =
      some (mkPendingOrder uid eid q pm price) := findOrder_insert_fresh _ hfresh
  by_cases hs : (EventService.decrease_available_tickets
      (insertOrder db oid (mkPendingOrder uid eid q pm price)) eid q).1 = true
  · have hcr : OrderService.create db uid eid q pm price oid =
        (.ok oid, (EventService.decrease_available_tickets
          (insertOrder db oid (mkPendingOrder uid eid q pm price)) eid q).2) := by
      simp only [OrderService.create]
      rw [hs]
      simp
    constructor
    · intro msg hmsg
      rw [hcr] at hmsg
      cases hmsg
    · intro k hk
      rw [hcr] at hk
      cases hk
      obtain ⟨e, hfe, hc, hge, heq⟩ := decrease_success hs
      refine ⟨rfl, ?_, e, hfe, hc, hge, ?_, ?_⟩
      · rw [hcr]
        dsimp only
        rw [findOrder_congr_orders (decrease_orders _ eid q) oid]
        exact hfresh1
      · rw [hcr]
        dsimp only
        rw [heq]
        dsimp only
        rw [findEvent_setEvent_self]
        rw [hfe]
        rfl
      · intro j hj
        rw [hcr]
        dsimp only
        rw [heq]
        dsimp only
        rw [findEvent_setEvent_ne _ _ _ _ hj]
        rfl
  · have hs' : (EventService.decrease_available_tickets
        (insertOrder db oid (mkPendingOrder uid eid q pm price)) eid q).1 = false := by
      simpa using hs
    have hfail := decrease_fail_eq hs'
    have hcr : OrderService.create db uid eid q pm price oid =
        (.error "Failed to reserve tickets. Not enough available tickets.",
          deleteOrder (EventService.decrease_available_tickets
            (insertOrder db oid (mkPendingOrder uid eid q pm price)) eid q).2 oid) := by
      simp only [OrderService.create]
      rw [hs']
      simp
    constructor
    · intro msg hmsg
      rw [hcr] at hmsg
      cases hmsg
      constructor
      · rw [hcr]
        dsimp only
        rw [hfail]
        exact deleteOrder_insertOrder hfresh
      · rfl
    · intro k hk
      rw [hcr] at hk
      cases hk

/-- Witness for C2: on the concrete store (event 1 has 5 tickets), a fresh
order (id 2) for 2 tickets is created, recorded, and event 1 drops to 3. -/
theorem c2_order_creation_atomic_witness :
    findOrder wDb 2 = none ∧
      (OrderService.create wDb 1 1 2 "credit_card" 3 2).1 = .ok 2 ∧
      findOrder (OrderService.create wDb 1 1 2 "credit_card" 3 2).2 2 =
        some (mkPendingOrder 1 1 2 "credit_card" 3) :=
  ⟨rfl, rfl, ((c2_order_creation_atomic wDb 1 1 2 "credit_card" 3 2 rfl).2 2 rfl).2.1⟩

/-- C3 (amended): CANCELED is terminal at the endpoints: on an order whose
status is CANCELED, the cancel endpoint fails with the 409-style conflict
(400, "Order is already canceled") and the payment endpoint fails with
(400, "Cannot process payment for a canceled order"); both abort before
any commit, so neither the order nor any event changes and no inventory is
released a second time.  (REFUNDED is not protected — see the
counterexample — and update_status validates no transition.) -/
theorem c3_canceled_terminal (db : Db) (oid : Int) (o : Order)
    (h : findOrder db oid = some o) (hc : o.status = OrderStatus.canceled) :
    OrdersApi.cancel_order db oid = .error (400, "Order is already canceled") ∧
    (∀ pd pm uuidHex now, OrdersApi.process_payment db oid pd pm uuidHex now =
      .error (400, "Cannot process payment for a canceled order")) := by
  have hp : ¬(o.status = OrderStatus.paid) := by
    rw [hc]
    intro hx
    cases hx
  constructor
  · simp [OrdersApi.cancel_order, h, hc]
  · intro pd pm uuidHex now
    simp [OrdersApi.process_payment, h, hp, hc]

/-- Witness for C3 (amended) at the concrete store with a canceled order. -/
theorem c3_canceled_terminal_witness :
    findOrder wDbCanceled 7 = some wOrdCanceled ∧
      wOrdCanceled.status = OrderStatus.canceled ∧
      OrdersApi.cancel_order wDbCanceled 7 = .error (400, "Order is already canceled") :=
  ⟨rfl, rfl, (c3_canceled_terminal wDbCanceled 7 wOrdCanceled rfl rfl).1⟩

/-- C3 counterexample: a REFUNDED order is not terminal.  Canceling the
refunded order 7 (quantity 2) succeeds and releases its tickets again
(event 1 goes from 5 to 7 available), and processing a payment on it
succeeds and moves it back to PAID — contradicting the claim that every
operation on a REFUNDED order fails without side effects. -/
theorem c3_refunded_not_terminal_counterexample :
    OrdersApi.cancel_order wDbRefunded 7 =
      .ok ⟨[(1, { wEv with available_tickets := 7 })],
           [(7, { wOrdRefunded with status := OrderStatus.canceled })]⟩ ∧
    OrdersApi.process_payment wDbRefunded 7 ⟨none, none, none, none⟩ "paypal" "u" 9 =
      .ok ({ order_id := 7, status := OrderStatus.paid,
             payment_id := some "payment_u", message := "Payment successful" },
           ⟨[(1, wEv)],
            [(7, { wOrdRefunded with status := OrderStatus.paid, payment_id := some "payment_u", paid_at := some 9 })]⟩) :=
  ⟨rfl, rfl⟩

/-- C7: invoking the payment endpoint on an already-PAID order returns the
"Order is already paid" response carrying the stored payment_id and
returns the store unchanged — paid_at, payment_id and the
available_tickets of every event keep their values. -/
theorem c7_payment_idempotent_on_paid (db : Db) (oid : Int) (o : Order)
    (h : findOrder db oid = some o) (hp : o.status = OrderStatus.paid)
    (pd : PaymentDetails) (pm uuidHex : String) (now : Int) :
    OrdersApi.process_payment db oid pd pm uuidHex now =
      .ok ({ order_id := oid, status := OrderStatus.paid,
             payment_id := o.payment_id, message := "Order is already paid" }, db) := by
  simp [OrdersApi.process_payment, h, hp]

/-- Witness for C7 on the concrete store with a paid order. -/
theorem c7_payment_idempotent_on_paid_witness :
    findOrder wDbPaid 5 = some wOrdPaid ∧ wOrdPaid.status = OrderStatus.paid ∧
      OrdersApi.process_payment wDbPaid 5 ⟨none, none, none, none⟩ "credit_card" "u" 3 =
        .ok ({ order_id := 5, status := OrderStatus.paid,
               payment_id := wOrdPaid.payment_id, message := "Order is already paid" },
             wDbPaid) :=
  ⟨rfl, rfl,
    c7_payment_idempotent_on_paid wDbPaid 5 wOrdPaid rfl rfl ⟨none, none, none, none⟩
      "credit_card" "u" 3⟩

/-- C10 counterexample: refund_id = some "" is non-null, yet Python
truthiness skips the concatenation — cancel_order leaves payment_id
null instead of storing "None:refund:". -/
theorem c10_empty_refund_counterexample :
    OrderService.cancel_order wDbPaidNoPid 4 (some "") =
      .ok ⟨[(1, wEv)], [(4, { wOrdPaidNoPid with status := OrderStatus.canceled })]⟩ ∧
    ({ wOrdPaidNoPid with status := OrderStatus.canceled } : Order).payment_id = none :=
  ⟨rfl, rfl⟩

/-- C10 (amended): update_status can mark an order PAID without supplying
a payment id, leaving payment_id at its old value (so PAID with null
payment_id is reachable); and for every non-null, non-empty refund id,
cancel_order stores old-payment-id ++ ":refund:" ++ refund-id, which for a
null payment_id makes the stored value start with the literal
"None:refund:". -/
theorem c10_cancel_refund_concatenation (db : Db) (oid : Int) (o : Order) (now : Int)
    (h : findOrder db oid = some o) :
    (OrderService.update_status db oid OrderStatus.paid none now =
      .ok (setOrder db oid { o with status := OrderStatus.paid, paid_at := some now })) ∧
    (∀ r : String, r ≠ "" →
      OrderService.cancel_order db oid (some r) =
        .ok (setOrder db oid { o with status := OrderStatus.canceled, payment_id := some (pyStrOpt o.payment_id ++ ":refund:" ++ r) })) ∧
    (o.payment_id = none → ∀ r : String, r ≠ "" →
      OrderService.cancel_order db oid (some r) =
        .ok (setOrder db oid { o with status := OrderStatus.canceled, payment_id := some ("None:refund:" ++ r) })) := by
  refine ⟨?_, ?_, ?_⟩
  · simp [OrderService.update_status, h, optStrTruthy]
  · intro r hr
    have ht : optStrTruthy (some r) = true := by
      simp [optStrTruthy, hr]
    simp [OrderService.cancel_order, h, ht, pyStrOpt]
  · intro hpid r hr
    have ht : optStrTruthy (some r) = true := by
      simp [optStrTruthy, hr]
    simp [OrderService.cancel_order, h, ht, pyStrOpt, hpid]

/-- Witness for C10 (amended): canceling the paid order with null
payment_id and refund id "ref9" stores "None:refund:ref9". -/
theorem c10_cancel_refund_concatenation_witness :
    findOrder wDbPaidNoPid 4 = some wOrdPaidNoPid ∧
      wOrdPaidNoPid.payment_id = none ∧ ("ref9" : String) ≠ "" ∧
      OrderService.cancel_order wDbPaidNoPid 4 (some "ref9") =
        .ok (setOrder wDbPaidNoPid 4 { wOrdPaidNoPid with status := OrderStatus.canceled, payment_id := some ("None:refund:" ++ "ref9") }) :=
  ⟨rfl, rfl, by decide,
    (c10_cancel_refund_concatenation wDbPaidNoPid 4 wOrdPaidNoPid 0 rfl).2.2 rfl "ref9"
      (by decide)⟩

/-- C9 counterexample: a card that expired in January 2020 (in the past
relative to the current date, 2026-10) is accepted by the effective
validator — the second, shadowing definition replaces the current-date
comparison by the fixed range 2000-2100 — and the payment succeeds; the
first, shadowed definition would have rejected it. -/
theorem c9_expired_card_counterexample :
    PaymentService.validate_credit_card wCardExpired = true ∧
    ¬ CardRulesOk 2026 10 wCardExpired ∧
    PaymentService.validate_credit_card_shadowed 2026 10 wCardExpired = false ∧
    (PaymentService.process_payment 100 "credit_card" wCardExpired "u").success = true := by
  refine ⟨by decide, by decide, by decide, by decide⟩

/-- C9 (amended): the effective card validator accepts exactly the inputs
satisfying: all four fields present (truthy), number 13-19 digits after
stripping space/dash separators, month in 1-12, expiry year in the fixed
range 2000-2100 (no comparison with the current date), cvc 3-4 digits;
every input violating one of these rules makes the credit_card payment
fail. -/
theorem c9_card_validation_amended :
    ∀ d : PaymentDetails,
      (PaymentService.validate_credit_card d = true ↔ CardRulesAmended d) ∧
      (∀ (amount : Rat) (uuidHex : String), ¬ CardRulesAmended d →
        (PaymentService.process_payment amount "credit_card" d uuidHex).success = false) := by
  intro d
  have hiff : PaymentService.validate_credit_card d = true ↔ CardRulesAmended d := by
    unfold PaymentService.validate_credit_card CardRulesAmended
    constructor
    · intro h
      dsimp only at h
      split_ifs at h with h1 h2 h3 h4 h5 h6 h7
      simp at h1 h2 h3 h4 h5 h6 h7
      exact ⟨h1, h2, h3, h4, h5.1, h5.2.1, h5.2.2, h6.1.1, h6.1.2, h6.2.1, h6.2.2,
        h7.1, h7.2.1, h7.2.2⟩
    · intro hc
      obtain ⟨c1, c2, c3, c4, c5, c6, c7, c8, c9, c10, c11, c12, c13, c14⟩ := hc
      simp [c1, c2, c3, c4, c5, c6, c7, c8, c9, c10, c11, c12, c13, c14]
  refine ⟨hiff, ?_⟩
  intro amount uuidHex h
  have hval : PaymentService.validate_credit_card d = false := by
    cases hv : PaymentService.validate_credit_card d with
    | false => rfl
    | true => exact absurd (hiff.mp hv) h
  simp [PaymentService.process_payment, hval]

/-- Witness for C9 (amended): a 4-digit card number violates the rules and
the credit_card payment fails on it. -/
theorem c9_card_validation_amended_witness :
    ¬ CardRulesAmended wCardShort ∧
      (PaymentService.process_payment 100 "credit_card" wCardShort "u").success = false :=
  ⟨by decide, (c9_card_validation_amended wCardShort).2 100 "u" (by decide)⟩

example :
    EventService.decrease_available_tickets
      ⟨[(1, ⟨"t", "l", 10, 5, 3, true, false⟩)], []⟩ 1 2
      = (true, ⟨[(1, ⟨"t", "l", 10, 3, 3, true, false⟩)], []⟩) := by decide

example :
    EventService.increase_available_tickets
      ⟨[(1, ⟨"t", "l", 10, 9, 3, true, false⟩)], []⟩ 1 5
      = (true, ⟨[(1, ⟨"t", "l", 10, 10, 3, true, false⟩)], []⟩) := by decide

example :
    EventService.update ⟨[(1, ⟨"t", "l", 100, 90, 3, true, false⟩)], []⟩ 1
      { total_capacity := some 5 }
      = .error "Cannot reduce capacity below tickets already sold (10)" := rfl
